import Mathlib

/-!
Verification development for the drishti water-quality scoring pipeline
(`backend/ml.py` and the simulation page of `frontend/app.py`).

Modelling conventions:
* A pandas row is a `Row`: a timestamp (`ts`, seconds since the epoch, an
  integer) plus named numeric cells held as an association list; a channel
  with no entry in `cells` models an absent column label.  Keys are
  case-sensitive strings, exactly as pandas column labels are.  For the
  per-field defaulting behaviour a refined model is used as well (`NRow`
  with `RVal` cells): the callers' frames carry every channel column, so a
  null channel is a present cell holding NaN — which `row.get` returns as
  stored, bypassing the default — and Python's two-argument `max`/`min`
  treat NaN by argument position.
* Python floats are modelled by exact rationals `ℚ`.
* A pandas `KeyError` (selecting a column that is not in the frame) is
  modelled by `Except.error`; every function that can raise returns
  `Except String _`.
* `pd.to_datetime` / ISO formatting of output timestamps is dropped: a
  forecast point carries the integer timestamp itself.
* Hourly resampling floors timestamps to the hour (`Int.fdiv · 3600`),
  buckets run from the floor of the earliest to the floor of the latest
  timestamp, empty interior buckets are filled by linear interpolation on
  the bucket positions, matching `resample("1h").mean().interpolate()`.
-/

namespace Drishti

/-- One reading row: timestamp in seconds plus named numeric cells.  A
missing channel has no entry. -/
structure Row where
  ts : Int
  cells : List (String × ℚ)
deriving DecidableEq, Repr, Inhabited

/-- First cell with the given key, if any (pandas label lookup). -/
def lookupCell (k : String) : List (String × ℚ) → Option ℚ
  | [] => none
  | c :: cs => if c.1 = k then some c.2 else lookupCell k cs

/-- Pandas `row.get(key, default)`: first cell with the key, else the
default. -/
def Row.get (r : Row) (k : String) (d : ℚ) : ℚ :=
  (lookupCell k r.cells).getD d

/-- Whether the row carries a cell for the key. -/
def Row.has (r : Row) (k : String) : Bool :=
  (lookupCell k r.cells).isSome

/-- A column exists in the frame iff some row carries it (pandas columns of
a frame built from dict rows are the union of the keys). -/
def hasCol (df : List Row) (k : String) : Bool :=
  df.any (fun r => r.has k)

/-- `NUMERIC_COLS` from `backend/ml.py` line 13 (note: all lowercase). -/
def NUMERIC_COLS : List String :=
  ["ph", "do2", "bod", "cod", "turbidity", "ammonia", "temperature", "conductivity"]

/-- The five pollutant columns scaled by `simulate_policy`. -/
def pollutantCols : List String :=
  ["bod", "cod", "turbidity", "ammonia", "conductivity"]

/-- Python `int(...)` on a rational: truncation toward zero. -/
def ratTrunc (q : ℚ) : Int :=
  if 0 ≤ q then ⌊q⌋ else -⌊-q⌋

/-- An alert record as built by `anomaly_detection`. -/
structure Alert where
  sensor_id : Int
  message : String
  severity : String
  timestamp : Int
deriving DecidableEq, Repr

/-- One forecast point: future timestamp plus predicted risk. -/
structure FPoint where
  ts : Int
  risk : ℚ
deriving DecidableEq, Repr

/-- Result dict of `predict_risk` / `simulate_policy`: the two field names
are part of the value because the two functions do not agree on them. -/
structure MLResult where
  pointsKey : String
  points : List FPoint
  baselineKey : String
  baseline : ℚ
deriving DecidableEq, Repr

/-- Scale one cell: pollutant columns are multiplied by the factor, all
other cells pass through (`df[col] = df[col] * factor` for the five
pollutant columns). -/
def scaleCell (factor : ℚ) (c : String × ℚ) : String × ℚ :=
  if c.1 ∈ pollutantCols then (c.1, c.2 * factor) else c

/-- Scale every pollutant cell of a row; the timestamp is untouched. -/
def scaleRow (factor : ℚ) (r : Row) : Row :=
  ⟨r.ts, r.cells.map (scaleCell factor)⟩

/-- Insert a row into a list sorted by ascending timestamp. -/
def insertByTs (r : Row) : List Row → List Row
  | [] => [r]
  | x :: xs => if r.ts ≤ x.ts then r :: x :: xs else x :: insertByTs r xs

/-- `df.sort_values("timestamp")` as an insertion sort. -/
def sortByTs : List Row → List Row
  | [] => []
  | x :: xs => insertByTs x (sortByTs xs)

/-- Floor a timestamp to its hour index (resampling bucket label / 3600). -/
def hourFloor (t : Int) : Int :=
  Int.fdiv t 3600

/-- Number of rows of the hourly-resampled frame (`df_hour.shape[0]`):
one bucket per hour from the floor of the earliest to the floor of the
latest timestamp.  The argument is assumed sorted by timestamp. -/
def hourCount (s : List Row) : Nat :=
  match s with
  | [] => 0
  | r :: _ => (hourFloor ((s.getLastD r).ts) - hourFloor r.ts).toNat + 1

/-- Mean score of the readings falling in hour bucket `h`, `none` when the
bucket is empty (a NaN prior to interpolation). -/
def bucketMean (score : Row → ℚ) (s : List Row) (h : Int) : Option ℚ :=
  let xs := (s.filter (fun r => hourFloor r.ts == h)).map score
  if xs.isEmpty then none else some (xs.sum / (xs.length : ℚ))

/-- Last defined bucket at position at most `i`. -/
def findPrev (bs : List (Option ℚ)) (i : Nat) : Option (Nat × ℚ) :=
  ((List.range (i + 1)).filterMap (fun j => (bs.getD j none).map (fun y => (j, y)))).getLast?

/-- First defined bucket at position at least `i`. -/
def findNext (bs : List (Option ℚ)) (i : Nat) : Option (Nat × ℚ) :=
  (((List.range bs.length).drop i).filterMap (fun j => (bs.getD j none).map (fun y => (j, y)))).head?

/-- Pandas `.interpolate()` (linear, position based) on the bucket list.
In this pipeline the first and last buckets always hold the earliest and
latest reading, so the one-sided branches are unreachable; they mirror
pandas anyway (forward fill after the last defined value, leading gaps
cannot be filled). -/
def interpolate (bs : List (Option ℚ)) : List ℚ :=
  (List.range bs.length).map (fun i =>
    match bs.getD i none with
    | some y => y
    | none =>
      match findPrev bs i, findNext bs i with
      | some jy, some ky =>
        jy.2 + (ky.2 - jy.2) * (((i : ℚ) - (jy.1 : ℚ)) / ((ky.1 : ℚ) - (jy.1 : ℚ)))
      | some jy, none => jy.2
      | none, _ => 0)

/-- Ordinary least squares of `ys` against x-values `0, 1, …, n-1`
(`sklearn.linear_model.LinearRegression` on the single feature `t_idx`):
returns `(slope, intercept)`. -/
def olsFit (ys : List ℚ) : ℚ × ℚ :=
  let n : ℚ := (ys.length : ℚ)
  let xbar := (n - 1) / 2
  let ybar := ys.sum / n
  let sxy := (ys.enum.map (fun p => ((p.1 : ℚ) - xbar) * (p.2 - ybar))).sum
  let sxx := (ys.enum.map (fun p => ((p.1 : ℚ) - xbar) * ((p.1 : ℚ) - xbar))).sum
  let slope := sxy / sxx
  (slope, ybar - slope * xbar)

namespace Backend

/-- `_pollution_index` of `backend/ml.py`.  Faithful detail: the dissolved
oxygen term reads key `"DO2"` (uppercase) while the rest of the module's
column names (`NUMERIC_COLS`) are lowercase. -/
def pollution_index (r : Row) : ℚ :=
  max 0 |Row.get r "ph" 7 - 7| * 1
    + max 0 (8 - Row.get r "DO2" 8) * 1.5
    + Row.get r "bod" 0 * 0.2
    + Row.get r "cod" 0 * 0.1
    + Row.get r "turbidity" 0 * 0.05
    + Row.get r "ammonia" 0 * 0.2
    + Row.get r "conductivity" 0 * 0.01

/-- The alert dict built for one anomalous row. -/
def mkAlert (r : Row) : Alert :=
  ⟨ratTrunc (Row.get r "sensor_id" (-1)), "Anomalous reading detected", "high", r.ts⟩

/-- `anomaly_detection` of `backend/ml.py`, parameterised by the isolation
forest.  Modelled from the spec: `IsolationForest(contamination,
random_state=42).fit_predict` is an external seeded model; it enters as the
function `fit_predict` from the window's feature matrix to the per-row
anomaly flags (the spec's contract: one flag per input row).  The rest is
the source verbatim: empty frame short-circuits, the feature matrix is
`df[NUMERIC_COLS].fillna(0)` (raising `KeyError` when a column is absent),
and one alert per flagged row in frame order. -/
def anomaly_detection (fit_predict : List (List ℚ) → List Bool) (df : List Row) :
    Except String (List Bool × List Alert) :=
  if df.isEmpty then .ok ([], [])
  else if NUMERIC_COLS.all (hasCol df) then
    let flags := fit_predict (df.map (fun r => NUMERIC_COLS.map (fun c => Row.get r c 0)))
    .ok (flags, ((df.zip flags).filter (fun p => p.2)).map (fun p => mkAlert p.1))
  else .error "KeyError: NUMERIC_COLS not in index"

/-- `predict_risk` of `backend/ml.py`.  Order of effects as in the source:
empty check, per-row scoring, hourly resample of the lowercase numeric
columns plus the score (raising `KeyError` when a lowercase column is
absent), then either the flat fallback (fewer than 2 hourly points) or the
least-squares extrapolation.  Only the score column and the bucket labels
of the resampled frame are consumed downstream. -/
def predict_risk (df : List Row) : Except String MLResult :=
  if df.isEmpty then .ok ⟨"next_24h", [], "baseline", 0⟩
  else if NUMERIC_COLS.all (hasCol df) then
    let s := sortByTs df
    let scores := s.map pollution_index
    if hourCount s < 2 then
      let lastScore := scores.getLastD 0
      let lastTs := (s.getLastD default).ts
      .ok ⟨"next_24h",
        (List.range 24).map (fun (i : ℕ) => ⟨lastTs + 3600 * ((i : Int) + 1), lastScore⟩),
        "baseline", lastScore⟩
    else
      let h0 := hourFloor ((s.headD default).ts)
      let h1 := hourFloor ((s.getLastD default).ts)
      let ys := interpolate ((List.range (hourCount s)).map (fun (i : ℕ) => bucketMean pollution_index s (h0 + (i : Int))))
      let sl := olsFit ys
      .ok ⟨"next_24h",
        (List.range 24).map (fun (i : ℕ) =>
          ⟨h1 * 3600 + 3600 * ((i : Int) + 1),
           max (sl.2 + sl.1 * (((hourCount s : ℚ) - 1) + ((i : ℚ) + 1))) 0⟩),
        "baseline", scores.sum / (scores.length : ℚ)⟩
  else .error "KeyError: NUMERIC_COLS not in index"

/-- `simulate_policy` of `backend/ml.py`: clamp the reduction to a factor
in `[0,1]`, return the `projected_*` record on an empty frame, otherwise
scale the five pollutant columns and delegate to `predict_risk`. -/
def simulate_policy (df : List Row) (reduction_pct : ℚ) : Except String MLResult :=
  let factor := max 0 (min 1 (1 - reduction_pct / 100))
  if df.isEmpty then .ok ⟨"projected_next_24h", [], "projected_baseline", 0⟩
  else predict_risk (df.map (scaleRow factor))

end Backend

namespace Frontend

/-- Clamped pH-deviation fraction of the simulation page's
`_pollution_index` (`frontend/app.py`). -/
def ph_dev (r : Row) : ℚ :=
  min (|Row.get r "ph" 7 - 7| / 3) 1

/-- Clamped dissolved-oxygen-deficit fraction. -/
def do_def (r : Row) : ℚ :=
  min (max 0 ((8 - Row.get r "do2" 8) / 6)) 1

/-- Clamped BOD fraction. -/
def bod_n (r : Row) : ℚ :=
  min (max (Row.get r "bod" 0 / 20) 0) 1

/-- Clamped COD fraction. -/
def cod_n (r : Row) : ℚ :=
  min (max (Row.get r "cod" 0 / 200) 0) 1

/-- Clamped turbidity fraction. -/
def turb_n (r : Row) : ℚ :=
  min (max (Row.get r "turbidity" 0 / 100) 0) 1

/-- Clamped ammonia fraction. -/
def ammo_n (r : Row) : ℚ :=
  min (max (Row.get r "ammonia" 0 / 10) 0) 1

/-- Clamped conductivity fraction. -/
def cond_n (r : Row) : ℚ :=
  min (max (Row.get r "conductivity" 0 / 2000) 0) 1

/-- The weighted 0-1 combination `score_0_1` of the frontend
`_pollution_index`; the coefficients are listed in `weights`. -/
def score01 (r : Row) : ℚ :=
  0.15 * ph_dev r + 0.20 * do_def r + 0.20 * bod_n r + 0.15 * cod_n r
    + 0.10 * turb_n r + 0.10 * ammo_n r + 0.10 * cond_n r

/-- The seven fixed channel weights of `score01`, in source order. -/
def weights : List ℚ :=
  [0.15, 0.20, 0.20, 0.15, 0.10, 0.10, 0.10]

/-- `_pollution_index` of the simulation page (`frontend/app.py`): the
normalized 0-100 risk score. -/
def pollution_index (r : Row) : ℚ :=
  min (max (score01 r * 100) 0) 100

/-- `_forecast` of the simulation page: per-row scoring, hourly resample,
flat fallback below 6 hourly points (flag `true`), otherwise least-squares
extrapolation over `horizon` hours (flag `false`).  Returns
`(points, mean score, hourly point count, flat flag)`.  The page only
calls it on a non-empty frame; an empty one would raise (`iloc[-1]`),
modelled as an error. -/
def forecast (horizon : Nat) (df : List Row) :
    Except String (List FPoint × ℚ × Nat × Bool) :=
  if df.isEmpty then .error "IndexError"
  else
    let s := sortByTs df
    let scores := s.map pollution_index
    let cnt := hourCount s
    let avg := scores.sum / (scores.length : ℚ)
    if cnt < 6 then
      let lastScore := scores.getLastD 0
      let lastTs := (s.getLastD default).ts
      .ok ((List.range horizon).map (fun (i : ℕ) => ⟨lastTs + 3600 * ((i : Int) + 1), lastScore⟩),
        avg, cnt, true)
    else
      let h0 := hourFloor ((s.headD default).ts)
      let h1 := hourFloor ((s.getLastD default).ts)
      let ys := interpolate ((List.range cnt).map (fun (i : ℕ) => bucketMean pollution_index s (h0 + (i : Int))))
      let sl := olsFit ys
      .ok ((List.range horizon).map (fun (i : ℕ) =>
          ⟨h1 * 3600 + 3600 * ((i : Int) + 1),
           max (sl.2 + sl.1 * (((cnt : ℚ) - 1) + ((i : ℚ) + 1))) 0⟩),
        avg, cnt, false)

end Frontend

/-- The baseline field of a forecaster result (0 on an error). -/
def baselineOf : Except String MLResult → ℚ
  | .ok r => r.baseline
  | .error _ => 0

/-- The points field of a forecaster result ([] on an error). -/
def pointsOf : Except String MLResult → List FPoint
  | .ok r => r.points
  | .error _ => []

/-- The name under which the points are returned (the error text on an
error). -/
def pointsKeyOf : Except String MLResult → String
  | .ok r => r.pointsKey
  | .error e => e

/-- The name under which the baseline is returned (the error text on an
error). -/
def baselineKeyOf : Except String MLResult → String
  | .ok r => r.baselineKey
  | .error e => e

/-- Whether the call returned a result rather than raising. -/
def isOkResult : Except String MLResult → Bool
  | .ok _ => true
  | .error _ => false

/-- The flags of an anomaly-detection result ([] on an error). -/
def flagsOf : Except String (List Bool × List Alert) → List Bool
  | .ok p => p.1
  | .error _ => []

/-- The alerts of an anomaly-detection result ([] on an error). -/
def alertsOf : Except String (List Bool × List Alert) → List Alert
  | .ok p => p.2
  | .error _ => []

/-- Mean backend risk score of a frame, as a bare expression (the spec's
"mean risk score over all input readings"). -/
def meanScore (df : List Row) : ℚ :=
  (df.map Backend.pollution_index).sum / (df.length : ℚ)

/-- Baseline risk reported by `simulate_policy` (0 on an error). -/
def simBaseline (df : List Row) (p : ℚ) : ℚ :=
  baselineOf (Backend.simulate_policy df p)

/-- A trivial stand-in outlier model used where a concrete
`fit_predict` is needed; it flags every row. -/
def constTrue : List (List ℚ) → List Bool :=
  fun X => X.map (fun _ => true)

/-- One reading carrying exactly the interface's channel field names
(`pH`, `DO2`, `BOD`, `COD`, `turbidity`, `ammonia`, `temperature`,
`conductivity`), as every caller of `backend/ml.py` builds them. -/
def interfaceDf : List Row :=
  [⟨0, [("sensor_id", 1), ("pH", 7), ("DO2", 6), ("BOD", 5), ("COD", 50),
        ("turbidity", 20), ("ammonia", 1), ("temperature", 25), ("conductivity", 300)]⟩]

/-- One reading with every channel missing except a lowercase `ph`
(channels are optional per the interface). -/
def sparseDf : List Row :=
  [⟨0, [("sensor_id", 1), ("ph", 7)]⟩]

/-- C1: the core is not total over the documented input shape.  On a
non-empty window whose columns carry the interface's field names
(`pH`, `DO2`, `BOD`, `COD`, …) — the shape the backend API and the
repository's own smoke test build — `anomaly_detection`, `predict_risk`
and `simulate_policy` all raise `KeyError`, because `NUMERIC_COLS` is all
lowercase; the same happens on a window whose optional channels are
absent in every row. -/
theorem core_totality_violated :
    Backend.anomaly_detection constTrue interfaceDf = .error "KeyError: NUMERIC_COLS not in index"
    ∧ Backend.predict_risk interfaceDf = .error "KeyError: NUMERIC_COLS not in index"
    ∧ Backend.simulate_policy interfaceDf 20 = .error "KeyError: NUMERIC_COLS not in index"
    ∧ Backend.anomaly_detection constTrue sparseDf = .error "KeyError: NUMERIC_COLS not in index"
    ∧ Backend.predict_risk sparseDf = .error "KeyError: NUMERIC_COLS not in index" :=
  ⟨rfl, rfl, rfl, rfl, rfl⟩

/-- Two readings identical in every channel except `do2` (2 vs 5, both
present, both below 8), under the lowercase column names that the rest of
`backend/ml.py` (`NUMERIC_COLS`) uses. -/
def lowDo2Row : Row :=
  ⟨0, [("ph", 7), ("do2", 2), ("bod", 5), ("cod", 50), ("turbidity", 20),
       ("ammonia", 1), ("temperature", 25), ("conductivity", 300)]⟩

/-- Same reading with `do2 = 5`. -/
def highDo2Row : Row :=
  ⟨0, [("ph", 7), ("do2", 5), ("bod", 5), ("cod", 50), ("turbidity", 20),
       ("ammonia", 1), ("temperature", 25), ("conductivity", 300)]⟩

/-- C2: the unnormalized score does not penalize the DO2 deficit.  The
score reads key `"DO2"` (uppercase) while the pipeline's column names are
lowercase (`NUMERIC_COLS`), so the oxygen term always takes its default 8:
two readings identical except for `do2` (2 vs 5, both below the ceiling 8)
receive exactly equal scores, not a strictly greater one for lower
oxygen. -/
theorem do2_deficit_not_penalized :
    Row.get lowDo2Row "do2" 0 = 2 ∧ Row.get highDo2Row "do2" 0 = 5
    ∧ Backend.pollution_index lowDo2Row = Backend.pollution_index highDo2Row := by
  refine ⟨by simp +decide [Row.get, lookupCell, lowDo2Row],
          by simp +decide [Row.get, lookupCell, highDo2Row], ?_⟩
  simp +decide [Backend.pollution_index, Row.get, lookupCell, lowDo2Row, highDo2Row]

/-- C7: the frontend normalized score is always within [0, 100], each of
its seven channel badness fractions is clamped to [0, 1], and the fixed
weights combining them sum to 1. -/
theorem frontend_score_bounds (r : Row) :
    (0 ≤ Frontend.pollution_index r ∧ Frontend.pollution_index r ≤ 100)
    ∧ (0 ≤ Frontend.ph_dev r ∧ Frontend.ph_dev r ≤ 1)
    ∧ (0 ≤ Frontend.do_def r ∧ Frontend.do_def r ≤ 1)
    ∧ (0 ≤ Frontend.bod_n r ∧ Frontend.bod_n r ≤ 1)
    ∧ (0 ≤ Frontend.cod_n r ∧ Frontend.cod_n r ≤ 1)
    ∧ (0 ≤ Frontend.turb_n r ∧ Frontend.turb_n r ≤ 1)
    ∧ (0 ≤ Frontend.ammo_n r ∧ Frontend.ammo_n r ≤ 1)
    ∧ (0 ≤ Frontend.cond_n r ∧ Frontend.cond_n r ≤ 1)
    ∧ Frontend.weights.sum = 1 := by
  refine ⟨⟨le_min (le_max_right _ _) (by norm_num), min_le_right _ _⟩,
    ⟨le_min (by positivity) zero_le_one, min_le_right _ _⟩,
    ⟨le_min (le_max_left _ _) zero_le_one, min_le_right _ _⟩,
    ⟨le_min (le_max_right _ _) zero_le_one, min_le_right _ _⟩,
    ⟨le_min (le_max_right _ _) zero_le_one, min_le_right _ _⟩,
    ⟨le_min (le_max_right _ _) zero_le_one, min_le_right _ _⟩,
    ⟨le_min (le_max_right _ _) zero_le_one, min_le_right _ _⟩,
    ⟨le_min (le_max_right _ _) zero_le_one, min_le_right _ _⟩,
    by norm_num [Frontend.weights]⟩

theorem scaleCell_one (c : String × ℚ) : scaleCell 1 c = c := by
  unfold scaleCell
  split <;> simp

theorem map_scaleCell_one (cs : List (String × ℚ)) : cs.map (scaleCell 1) = cs := by
  induction cs with
  | nil => rfl
  | cons c cs ih => simp [scaleCell_one, ih]

theorem scaleRow_one (r : Row) : scaleRow 1 r = r := by
  cases r with
  | mk ts cells => simp [scaleRow, map_scaleCell_one]

theorem map_scaleRow_one (df : List Row) : df.map (scaleRow 1) = df := by
  induction df with
  | nil => rfl
  | cons r rs ih => simp [scaleRow_one, ih]

theorem simulate_policy_nonempty (df : List Row) (p : ℚ) (hne : df ≠ []) :
    Backend.simulate_policy df p
      = Backend.predict_risk (df.map (scaleRow (max 0 (min 1 (1 - p / 100))))) := by
  have hne' : df.isEmpty = false := by simpa [List.isEmpty_iff] using hne
  simp [Backend.simulate_policy, hne']

/-- C4 (amended): on every non-empty readings input, `simulate_policy`
with `reduction_pct = 0` returns exactly `predict_risk` of the same
readings; on the empty input the two records differ in field names (see
the counterexample). -/
theorem simulate_zero_noop (df : List Row) (hne : df ≠ []) :
    Backend.simulate_policy df 0 = Backend.predict_risk df := by
  rw [simulate_policy_nonempty df 0 hne]
  have hfac : max (0 : ℚ) (min 1 (1 - 0 / 100)) = 1 := by norm_num
  rw [hfac, map_scaleRow_one]

/-- Concrete non-empty window used to instantiate C4. -/
def zeroNoopDf : List Row :=
  [⟨0, [("ph", 7), ("do2", 6), ("bod", 5), ("cod", 50), ("turbidity", 20),
        ("ammonia", 1), ("temperature", 25), ("conductivity", 300)]⟩]

/-- Witness for C4's amended theorem at a concrete window. -/
theorem simulate_zero_noop_witness :
    Backend.simulate_policy zeroNoopDf 0 = Backend.predict_risk zeroNoopDf :=
  simulate_zero_noop zeroNoopDf (by decide)

/-- C4 counterexample: on the empty input, `simulate_policy` with zero
reduction does not equal `predict_risk` — the record's field names differ
(`projected_next_24h` / `projected_baseline` vs `next_24h` /
`baseline`). -/
theorem simulate_zero_empty_mismatch :
    Backend.simulate_policy [] 0 ≠ Backend.predict_risk []
    ∧ pointsKeyOf (Backend.simulate_policy [] 0) = "projected_next_24h"
    ∧ pointsKeyOf (Backend.predict_risk []) = "next_24h" := by
  refine ⟨fun h => ?_, rfl, rfl⟩
  have hk : pointsKeyOf (Backend.simulate_policy [] 0) = pointsKeyOf (Backend.predict_risk []) :=
    congrArg pointsKeyOf h
  rw [show pointsKeyOf (Backend.simulate_policy [] 0) = "projected_next_24h" from rfl,
      show pointsKeyOf (Backend.predict_risk []) = "next_24h" from rfl] at hk
  exact absurd hk (by decide)

theorem predict_risk_keys (df : List Row)
    (hok : isOkResult (Backend.predict_risk df) = true) :
    pointsKeyOf (Backend.predict_risk df) = "next_24h"
    ∧ baselineKeyOf (Backend.predict_risk df) = "baseline" := by
  simp only [Backend.predict_risk] at hok ⊢
  split_ifs at hok ⊢ <;> simp_all [pointsKeyOf, baselineKeyOf, isOkResult]

/-- C10: the field names of `simulate_policy`'s output differ between the
empty and non-empty cases — the empty input yields the record
`projected_next_24h = [] , projected_baseline = 0`, while every non-empty
input that returns a result yields `predict_risk`'s record with fields
`next_24h` and `baseline`. -/
theorem simulate_policy_field_names (p : ℚ) (df : List Row) (hne : df ≠ [])
    (hok : isOkResult (Backend.simulate_policy df p) = true) :
    pointsKeyOf (Backend.simulate_policy [] p) = "projected_next_24h"
    ∧ baselineKeyOf (Backend.simulate_policy [] p) = "projected_baseline"
    ∧ pointsOf (Backend.simulate_policy [] p) = []
    ∧ baselineOf (Backend.simulate_policy [] p) = 0
    ∧ pointsKeyOf (Backend.simulate_policy df p) = "next_24h"
    ∧ baselineKeyOf (Backend.simulate_policy df p) = "baseline" := by
  rw [simulate_policy_nonempty df p hne] at hok ⊢
  obtain ⟨h1, h2⟩ := predict_risk_keys _ hok
  exact ⟨rfl, rfl, rfl, rfl, h1, h2⟩

/-- Concrete non-empty window used to instantiate C10. -/
def fieldNamesDf : List Row :=
  [⟨0, [("ph", 7), ("do2", 6), ("bod", 4), ("cod", 40), ("turbidity", 10),
        ("ammonia", 1), ("temperature", 25), ("conductivity", 200)]⟩]

/-- Witness for C10 at a concrete window and reduction percentage. -/
theorem simulate_policy_field_names_witness :
    pointsKeyOf (Backend.simulate_policy [] 30) = "projected_next_24h"
    ∧ baselineKeyOf (Backend.simulate_policy [] 30) = "projected_baseline"
    ∧ pointsOf (Backend.simulate_policy [] 30) = []
    ∧ baselineOf (Backend.simulate_policy [] 30) = 0
    ∧ pointsKeyOf (Backend.simulate_policy fieldNamesDf 30) = "next_24h"
    ∧ baselineKeyOf (Backend.simulate_policy fieldNamesDf 30) = "baseline" :=
  simulate_policy_field_names 30 fieldNamesDf (by decide) (by rfl)

/-- C9: on every non-empty window carrying the module's numeric columns,
`anomaly_detection` returns one boolean flag per input row (given the
outlier model's one-prediction-per-sample contract), synthesizes exactly
one alert per flagged row — severity `high`, the fixed message, sensor id
and timestamp copied from the source row (`mkAlert`) — and none for
unflagged rows. -/
theorem anomaly_output_spec (fp : List (List ℚ) → List Bool) (df : List Row)
    (hlen : ∀ X, (fp X).length = X.length) (hne : df ≠ [])
    (hcols : NUMERIC_COLS.all (hasCol df) = true) :
    (flagsOf (Backend.anomaly_detection fp df)).length = df.length
    ∧ alertsOf (Backend.anomaly_detection fp df)
        = ((df.zip (flagsOf (Backend.anomaly_detection fp df))).filter (fun p => p.2)).map
            (fun p => Backend.mkAlert p.1)
    ∧ ∀ a ∈ alertsOf (Backend.anomaly_detection fp df),
        a.severity = "high" ∧ a.message = "Anomalous reading detected" := by
  have hne' : df.isEmpty = false := by simpa [List.isEmpty_iff] using hne
  simp only [Backend.anomaly_detection, hne', Bool.false_eq_true, if_false, hcols, if_true]
  refine ⟨by simp [flagsOf, hlen], rfl, ?_⟩
  intro a ha
  simp only [alertsOf, List.mem_map] at ha
  obtain ⟨pr, _, rfl⟩ := ha
  exact ⟨rfl, rfl⟩

/-- Concrete window used to instantiate C9. -/
def anomalyDf : List Row :=
  [⟨0, [("sensor_id", 3), ("ph", 7), ("do2", 6), ("bod", 5), ("cod", 50),
        ("turbidity", 20), ("ammonia", 1), ("temperature", 25), ("conductivity", 300)]⟩]

/-- Witness for C9 with the flag-everything model on a one-row window. -/
theorem anomaly_output_spec_witness :
    (flagsOf (Backend.anomaly_detection constTrue anomalyDf)).length = anomalyDf.length
    ∧ alertsOf (Backend.anomaly_detection constTrue anomalyDf)
        = ((anomalyDf.zip (flagsOf (Backend.anomaly_detection constTrue anomalyDf))).filter
            (fun p => p.2)).map (fun p => Backend.mkAlert p.1)
    ∧ ∀ a ∈ alertsOf (Backend.anomaly_detection constTrue anomalyDf),
        a.severity = "high" ∧ a.message = "Anomalous reading detected" :=
  anomaly_output_spec constTrue anomalyDf (fun X => by simp [constTrue]) (by decide) (by decide)

theorem insertByTs_perm (r : Row) (l : List Row) : (insertByTs r l).Perm (r :: l) := by
  induction l with
  | nil => exact List.Perm.refl _
  | cons x xs ih =>
    simp only [insertByTs]
    split
    · exact List.Perm.refl _
    · exact (List.Perm.cons x ih).trans (List.Perm.swap r x xs)

theorem sortByTs_perm (l : List Row) : (sortByTs l).Perm l := by
  induction l with
  | nil => exact List.Perm.refl _
  | cons x xs ih => exact (insertByTs_perm x (sortByTs xs)).trans (List.Perm.cons x ih)

theorem sortByTs_ne_nil (df : List Row) (hne : df ≠ []) : sortByTs df ≠ [] := by
  intro h
  apply hne
  have := (sortByTs_perm df).length_eq
  rw [h] at this
  exact List.length_eq_zero.mp this.symm

theorem getLastD_map_score {β : Type} (f : Row → β) (s : List Row) (hne : s ≠ []) (d1 : β) (d2 : Row) :
    (s.map f).getLastD d1 = f (s.getLastD d2) := by
  rw [List.getLastD_eq_getLast?, List.getLastD_eq_getLast?, List.getLast?_map]
  obtain ⟨x, hx⟩ := List.getLast?_isSome.mpr hne |> Option.isSome_iff_exists.mp
  rw [hx]
  rfl

theorem predict_risk_fallback (df : List Row) (hne : df ≠ [])
    (hcols : NUMERIC_COLS.all (hasCol df) = true)
    (hcnt : hourCount (sortByTs df) < 2) :
    Backend.predict_risk df = .ok ⟨"next_24h",
      (List.range 24).map (fun (i : ℕ) =>
        ⟨((sortByTs df).getLastD default).ts + 3600 * ((i : Int) + 1),
         ((sortByTs df).map Backend.pollution_index).getLastD 0⟩),
      "baseline", ((sortByTs df).map Backend.pollution_index).getLastD 0⟩ := by
  have hne' : df.isEmpty = false := by simpa [List.isEmpty_iff] using hne
  simp [Backend.predict_risk, hne', hcols, hcnt]

theorem predict_risk_regression (df : List Row) (hne : df ≠ [])
    (hcols : NUMERIC_COLS.all (hasCol df) = true)
    (hcnt : ¬ hourCount (sortByTs df) < 2) :
    Backend.predict_risk df = .ok ⟨"next_24h",
      (List.range 24).map (fun (i : ℕ) =>
        ⟨hourFloor (((sortByTs df).getLastD default).ts) * 3600 + 3600 * ((i : Int) + 1),
         max ((olsFit (interpolate ((List.range (hourCount (sortByTs df))).map
             (fun (i : ℕ) => bucketMean Backend.pollution_index (sortByTs df)
               (hourFloor (((sortByTs df).headD default).ts) + (i : Int)))))).2
           + (olsFit (interpolate ((List.range (hourCount (sortByTs df))).map
             (fun (i : ℕ) => bucketMean Backend.pollution_index (sortByTs df)
               (hourFloor (((sortByTs df).headD default).ts) + (i : Int)))))).1
             * (((hourCount (sortByTs df) : ℚ) - 1) + ((i : ℚ) + 1))) 0⟩),
      "baseline",
      ((sortByTs df).map Backend.pollution_index).sum
        / ((((sortByTs df).map Backend.pollution_index).length : ℚ))⟩ := by
  have hne' : df.isEmpty = false := by simpa [List.isEmpty_iff] using hne
  simp [Backend.predict_risk, hne', hcols, hcnt]

/-- C3 (amended): on the regression path (at least 2 hourly points) the
baseline returned by `predict_risk` is the mean per-reading score over all
input readings; on the flat-fallback path it is instead the score of the
most recent (last after sorting) reading, not the mean. -/
theorem predict_risk_baseline_spec (df : List Row) (hne : df ≠ [])
    (hcols : NUMERIC_COLS.all (hasCol df) = true) :
    (¬ hourCount (sortByTs df) < 2 →
      baselineOf (Backend.predict_risk df) = meanScore df)
    ∧ (hourCount (sortByTs df) < 2 →
      baselineOf (Backend.predict_risk df)
        = Backend.pollution_index ((sortByTs df).getLastD default)) := by
  constructor
  · intro hcnt
    rw [predict_risk_regression df hne hcols hcnt]
    have hperm := (sortByTs_perm df).map Backend.pollution_index
    simp only [baselineOf, meanScore]
    rw [hperm.sum_eq, hperm.length_eq, List.length_map]
  · intro hcnt
    rw [predict_risk_fallback df hne hcols hcnt]
    simp only [baselineOf]
    exact getLastD_map_score Backend.pollution_index (sortByTs df) (sortByTs_ne_nil df hne) 0 default

/-- Concrete regression-path window: readings one hour apart with scores 1
and 2. -/
def meanBaselineDf : List Row :=
  [⟨0, [("ph", 7), ("do2", 6), ("bod", 5), ("cod", 0), ("turbidity", 0),
        ("ammonia", 0), ("temperature", 25), ("conductivity", 0)]⟩,
   ⟨3600, [("ph", 7), ("do2", 6), ("bod", 10), ("cod", 0), ("turbidity", 0),
           ("ammonia", 0), ("temperature", 25), ("conductivity", 0)]⟩]

/-- Witness for C3's amended theorem: on a two-hour window the baseline is
the mean score. -/
theorem predict_risk_baseline_spec_witness :
    baselineOf (Backend.predict_risk meanBaselineDf) = meanScore meanBaselineDf :=
  (predict_risk_baseline_spec meanBaselineDf (by decide) (by decide)).1 (by decide)

/-- Concrete fallback-path window: two readings 10 minutes apart (one
hourly bucket) with scores 1 and 2. -/
def fallbackBaselineDf : List Row :=
  [⟨0, [("ph", 7), ("do2", 6), ("bod", 5), ("cod", 0), ("turbidity", 0),
        ("ammonia", 0), ("temperature", 25), ("conductivity", 0)]⟩,
   ⟨600, [("ph", 7), ("do2", 6), ("bod", 10), ("cod", 0), ("turbidity", 0),
          ("ammonia", 0), ("temperature", 25), ("conductivity", 0)]⟩]

/-- C3 counterexample: on the flat-fallback path the baseline is the last
reading's score 2, not the mean 3/2 over all input readings. -/
theorem baseline_not_mean_on_fallback :
    hourCount (sortByTs fallbackBaselineDf) < 2
    ∧ baselineOf (Backend.predict_risk fallbackBaselineDf) = 2
    ∧ meanScore fallbackBaselineDf = 3 / 2
    ∧ baselineOf (Backend.predict_risk fallbackBaselineDf) ≠ meanScore fallbackBaselineDf := by
  have h2 : baselineOf (Backend.predict_risk fallbackBaselineDf) = 2 := by
    rw [predict_risk_fallback fallbackBaselineDf (by decide) (by decide) (by decide)]
    simp only [baselineOf]
    simp +decide [fallbackBaselineDf, sortByTs, insertByTs, Backend.pollution_index, Row.get,
      lookupCell]
    norm_num
  have h3 : meanScore fallbackBaselineDf = 3 / 2 := by
    simp +decide [meanScore, fallbackBaselineDf, Backend.pollution_index, Row.get, lookupCell]
    norm_num
  exact ⟨by decide, h2, h3, by rw [h2, h3]; norm_num⟩

/-- The per-field defaults of the two pollution-index functions (temperature
is not scored by either). -/
def channelDefaults : List (String × ℚ) :=
  [("ph", 7), ("do2", 8), ("bod", 0), ("cod", 0), ("turbidity", 0), ("ammonia", 0),
   ("conductivity", 0)]

/-- A Python float cell value as the scoring functions see it: an exact
numeric value (a rational) or NaN.  The callers' frames carry every
channel column, so a null channel field is not an absent label but a
present cell holding NaN; this refined value type makes that case
expressible. -/
inductive RVal where
  | num : ℚ → RVal
  | nan : RVal
deriving DecidableEq, Repr

/-- Float addition: NaN propagates. -/
def RVal.add : RVal → RVal → RVal
  | RVal.num a, RVal.num b => RVal.num (a + b)
  | _, _ => RVal.nan

/-- Float subtraction: NaN propagates. -/
def RVal.sub : RVal → RVal → RVal
  | RVal.num a, RVal.num b => RVal.num (a - b)
  | _, _ => RVal.nan

/-- Float multiplication: NaN propagates (also through a zero factor). -/
def RVal.mul : RVal → RVal → RVal
  | RVal.num a, RVal.num b => RVal.num (a * b)
  | _, _ => RVal.nan

/-- Float division (used only with nonzero constant divisors): NaN
propagates. -/
def RVal.div : RVal → RVal → RVal
  | RVal.num a, RVal.num b => RVal.num (a / b)
  | _, _ => RVal.nan

/-- Python `abs`: NaN propagates. -/
def rabs : RVal → RVal
  | RVal.num a => RVal.num |a|
  | RVal.nan => RVal.nan

/-- Python two-argument `max`: it returns the second argument only when
that compares strictly greater, and every comparison against NaN is
false — so `max(0, nan) = 0` but `max(nan, y) = nan`. -/
def pyMax : RVal → RVal → RVal
  | RVal.num a, RVal.num b => RVal.num (max a b)
  | RVal.nan, _ => RVal.nan
  | x, RVal.nan => x

/-- Python two-argument `min`: it returns the second argument only when
that compares strictly smaller — so `min(nan, y) = nan` and
`min(x, nan) = x`. -/
def pyMin : RVal → RVal → RVal
  | RVal.num a, RVal.num b => RVal.num (min a b)
  | RVal.nan, _ => RVal.nan
  | x, RVal.nan => x

/-- A reading row of a caller-built frame: all channel columns present,
a null channel holds `RVal.nan`. -/
structure NRow where
  ts : Int
  cells : List (String × RVal)
deriving DecidableEq, Repr

/-- First cell with the given key, if any. -/
def nLookup (k : String) : List (String × RVal) → Option RVal
  | [] => none
  | c :: cs => if c.1 = k then some c.2 else nLookup k cs

/-- Pandas `row.get(key, default)` on a NaN-carrying row: the default
fires only when the label is absent; a present NaN cell is returned as
stored. -/
def NRow.get (r : NRow) (k : String) (d : ℚ) : RVal :=
  (nLookup k r.cells).getD (RVal.num d)

/-- `_pollution_index` of `backend/ml.py` over NaN-carrying cells, term
for term with Python's evaluation order (each `max(0, …)` has the
constant first, so a NaN pH or DO2 term collapses to 0 while a NaN
pollutant term propagates). -/
def Backend.pollution_index_nan (r : NRow) : RVal :=
  let t1 := (pyMax (RVal.num 0) (rabs ((NRow.get r "ph" 7).sub (RVal.num 7)))).mul (RVal.num 1)
  let t2 := (pyMax (RVal.num 0) ((RVal.num 8).sub (NRow.get r "DO2" 8))).mul (RVal.num 1.5)
  let t3 := (NRow.get r "bod" 0).mul (RVal.num 0.2)
  let t4 := (NRow.get r "cod" 0).mul (RVal.num 0.1)
  let t5 := (NRow.get r "turbidity" 0).mul (RVal.num 0.05)
  let t6 := (NRow.get r "ammonia" 0).mul (RVal.num 0.2)
  let t7 := (NRow.get r "conductivity" 0).mul (RVal.num 0.01)
  (((((((RVal.num 0).add t1).add t2).add t3).add t4).add t5).add t6).add t7

/-- `_pollution_index` of the simulation page over NaN-carrying cells,
term for term with Python's argument order in each clamp. -/
def Frontend.pollution_index_nan (r : NRow) : RVal :=
  let ph_dev := pyMin ((rabs ((NRow.get r "ph" 7).sub (RVal.num 7))).div (RVal.num 3)) (RVal.num 1)
  let do_def := pyMin (pyMax (RVal.num 0) (((RVal.num 8).sub (NRow.get r "do2" 8)).div (RVal.num 6))) (RVal.num 1)
  let bod_n := pyMin (pyMax ((NRow.get r "bod" 0).div (RVal.num 20)) (RVal.num 0)) (RVal.num 1)
  let cod_n := pyMin (pyMax ((NRow.get r "cod" 0).div (RVal.num 200)) (RVal.num 0)) (RVal.num 1)
  let turb_n := pyMin (pyMax ((NRow.get r "turbidity" 0).div (RVal.num 100)) (RVal.num 0)) (RVal.num 1)
  let ammo_n := pyMin (pyMax ((NRow.get r "ammonia" 0).div (RVal.num 10)) (RVal.num 0)) (RVal.num 1)
  let cond_n := pyMin (pyMax ((NRow.get r "conductivity" 0).div (RVal.num 2000)) (RVal.num 0)) (RVal.num 1)
  let score01 := (((((((RVal.num 0.15).mul ph_dev).add ((RVal.num 0.20).mul do_def)).add
      ((RVal.num 0.20).mul bod_n)).add ((RVal.num 0.15).mul cod_n)).add
      ((RVal.num 0.10).mul turb_n)).add ((RVal.num 0.10).mul ammo_n)).add
      ((RVal.num 0.10).mul cond_n)
  pyMin (pyMax (score01.mul (RVal.num 100)) (RVal.num 0)) (RVal.num 100)

theorem RVal.add_nan (x : RVal) : x.add RVal.nan = RVal.nan := by
  cases x <;> rfl

theorem RVal.nan_add (y : RVal) : RVal.nan.add y = RVal.nan := by
  cases y <;> rfl

theorem RVal.nan_mul (y : RVal) : RVal.nan.mul y = RVal.nan := by
  cases y <;> rfl

theorem RVal.mul_nan (x : RVal) : x.mul RVal.nan = RVal.nan := by
  cases x <;> rfl

theorem RVal.nan_div (y : RVal) : RVal.nan.div y = RVal.nan := by
  cases y <;> rfl

theorem pyMax_nan (y : RVal) : pyMax RVal.nan y = RVal.nan := by
  cases y <;> rfl

theorem pyMin_nan (y : RVal) : pyMin RVal.nan y = RVal.nan := by
  cases y <;> rfl

theorem NRow.get_cons (ts : Int) (c : String) (v : RVal) (cells : List (String × RVal))
    (k : String) (dd : ℚ) :
    NRow.get ⟨ts, (c, v) :: cells⟩ k dd = if c = k then v else NRow.get ⟨ts, cells⟩ k dd := by
  simp only [NRow.get, nLookup]
  split <;> simp

set_option maxHeartbeats 1600000 in
/-- C5 (amended): a channel whose label is absent from the row scores
exactly as if the per-field default were substituted — pH 7, DO2 8, the
five pollutant channels 0 — in both pollution-index functions, and both
functions always return a value, never an error.  A present-but-null
(NaN) channel, however, is not defaulted: `row.get` returns the stored
NaN, and a null pollutant channel propagates so the whole score is NaN
rather than a numeric value. -/
theorem missing_channel_defaulted (r r2 : NRow) (c c2 : String) (d : ℚ)
    (hmem : (c, d) ∈ channelDefaults) (hmiss : nLookup c r.cells = none)
    (hc2 : c2 ∈ pollutantCols) (hnan : NRow.get r2 c2 0 = RVal.nan) :
    (Backend.pollution_index_nan r = Backend.pollution_index_nan ⟨r.ts, (c, RVal.num d) :: r.cells⟩
      ∧ Frontend.pollution_index_nan r = Frontend.pollution_index_nan ⟨r.ts, (c, RVal.num d) :: r.cells⟩)
    ∧ (Backend.pollution_index_nan r2 = RVal.nan
      ∧ Frontend.pollution_index_nan r2 = RVal.nan) := by
  constructor
  · simp only [channelDefaults, List.mem_cons, List.mem_singleton, Prod.mk.injEq,
      List.not_mem_nil, or_false] at hmem
    have hr : (⟨r.ts, r.cells⟩ : NRow) = r := rfl
    rcases hmem with ⟨rfl, rfl⟩ | ⟨rfl, rfl⟩ | ⟨rfl, rfl⟩ | ⟨rfl, rfl⟩ | ⟨rfl, rfl⟩
      | ⟨rfl, rfl⟩ | ⟨rfl, rfl⟩ <;>
      constructor <;>
      simp +decide only [Backend.pollution_index_nan, Frontend.pollution_index_nan,
        NRow.get_cons, if_true, if_false, hr] <;>
      simp [NRow.get, hmiss]
  · simp only [pollutantCols, List.mem_cons, List.mem_singleton, List.not_mem_nil,
      or_false] at hc2
    rcases hc2 with rfl | rfl | rfl | rfl | rfl <;>
      constructor <;>
      simp [Backend.pollution_index_nan, Frontend.pollution_index_nan, hnan,
        RVal.add_nan, RVal.nan_add, RVal.nan_mul, RVal.mul_nan, RVal.nan_div,
        pyMax_nan, pyMin_nan]

/-- Reading with all channel columns present and a null (NaN) BOD cell,
as a None BOD field arrives in a caller-built frame. -/
def nullBodRow : NRow :=
  ⟨0, [("ph", RVal.num 7), ("do2", RVal.num 6), ("bod", RVal.nan), ("cod", RVal.num 0),
       ("turbidity", RVal.num 0), ("ammonia", RVal.num 0), ("temperature", RVal.num 25),
       ("conductivity", RVal.num 0)]⟩

/-- The same reading with the claimed per-field substitution applied
(BOD defaulted to 0). -/
def defaultedBodRow : NRow :=
  ⟨0, [("ph", RVal.num 7), ("do2", RVal.num 6), ("bod", RVal.num 0), ("cod", RVal.num 0),
       ("turbidity", RVal.num 0), ("ammonia", RVal.num 0), ("temperature", RVal.num 25),
       ("conductivity", RVal.num 0)]⟩

/-- C5 counterexample: a reading whose BOD channel is null (a present NaN
cell, as every caller's frame holds it) scores NaN in both
pollution-index functions — not the well-defined numeric score that the
claimed per-field substitution (BOD defaulted to 0) would give. -/
theorem null_channel_not_defaulted :
    Backend.pollution_index_nan nullBodRow = RVal.nan
    ∧ Frontend.pollution_index_nan nullBodRow = RVal.nan
    ∧ Backend.pollution_index_nan defaultedBodRow = RVal.num 0
    ∧ Frontend.pollution_index_nan defaultedBodRow = RVal.num (20 / 3)
    ∧ RVal.nan ≠ RVal.num 0 := by
  refine ⟨?_, ?_, ?_, ?_, by simp⟩
  · simp +decide [Backend.pollution_index_nan, NRow.get, nLookup, nullBodRow,
      RVal.add_nan, RVal.nan_add, RVal.nan_mul, RVal.mul_nan, RVal.nan_div,
      pyMax_nan, pyMin_nan]
  · simp +decide [Frontend.pollution_index_nan, NRow.get, nLookup, nullBodRow,
      RVal.add_nan, RVal.nan_add, RVal.nan_mul, RVal.mul_nan, RVal.nan_div,
      pyMax_nan, pyMin_nan]
  · simp +decide [Backend.pollution_index_nan, NRow.get, nLookup, defaultedBodRow,
      RVal.sub, RVal.add, RVal.mul, RVal.div, rabs, pyMax, pyMin]
  · simp +decide [Frontend.pollution_index_nan, NRow.get, nLookup, defaultedBodRow,
      RVal.sub, RVal.add, RVal.mul, RVal.div, rabs, pyMax, pyMin]
    norm_num

/-- Witness for C5's amended theorem: the empty-cells reading scores as if
the pH default were inserted, and the null-BOD reading scores NaN. -/
theorem missing_channel_defaulted_witness :
    (Backend.pollution_index_nan ⟨0, []⟩ = Backend.pollution_index_nan ⟨0, [("ph", RVal.num 7)]⟩
      ∧ Frontend.pollution_index_nan ⟨0, []⟩ = Frontend.pollution_index_nan ⟨0, [("ph", RVal.num 7)]⟩)
    ∧ (Backend.pollution_index_nan nullBodRow = RVal.nan
      ∧ Frontend.pollution_index_nan nullBodRow = RVal.nan) :=
  missing_channel_defaulted ⟨0, []⟩ nullBodRow "ph" "bod" 7 (by decide) rfl (by decide) (by decide)

/-- Points of a frontend forecast result ([] on an error). -/
def fPointsOf : Except String (List FPoint × ℚ × Nat × Bool) → List FPoint
  | .ok q => q.1
  | .error _ => []

/-- Flat/low-confidence flag of a frontend forecast result (false on an
error). -/
def fFlatOf : Except String (List FPoint × ℚ × Nat × Bool) → Bool
  | .ok q => q.2.2.2
  | .error _ => false

theorem frontend_forecast_fallback (horizon : Nat) (df : List Row) (hne : df ≠ [])
    (hcnt : hourCount (sortByTs df) < 6) :
    Frontend.forecast horizon df = .ok
      ((List.range horizon).map (fun (i : ℕ) =>
        ⟨((sortByTs df).getLastD default).ts + 3600 * ((i : Int) + 1),
         ((sortByTs df).map Frontend.pollution_index).getLastD 0⟩),
       ((sortByTs df).map Frontend.pollution_index).sum
         / ((((sortByTs df).map Frontend.pollution_index).length : ℚ)),
       hourCount (sortByTs df), true) := by
  have hne' : df.isEmpty = false := by simpa [List.isEmpty_iff] using hne
  simp [Frontend.forecast, hne', hcnt]

/-- C6 (amended): below the minimum number of hourly points (2 for the
backend baseline path, 6 for the frontend simulation path) the forecaster
returns a horizon-length sequence repeating the most recent reading's
risk score flat; the frontend `_forecast` additionally flags this to its
caller (returns `flat = true`), but the backend `predict_risk` result
carries no such flag (see the counterexample: its fallback output is
indistinguishable from a regression output). -/
theorem forecast_flat_repeat (df : List Row) (horizon : Nat) (hne : df ≠ [])
    (hcols : NUMERIC_COLS.all (hasCol df) = true) :
    (hourCount (sortByTs df) < 2 →
      (pointsOf (Backend.predict_risk df)).length = 24
      ∧ ∀ pt ∈ pointsOf (Backend.predict_risk df),
          pt.risk = Backend.pollution_index ((sortByTs df).getLastD default))
    ∧ (hourCount (sortByTs df) < 6 →
      fFlatOf (Frontend.forecast horizon df) = true
      ∧ (fPointsOf (Frontend.forecast horizon df)).length = horizon
      ∧ ∀ pt ∈ fPointsOf (Frontend.forecast horizon df),
          pt.risk = Frontend.pollution_index ((sortByTs df).getLastD default)) := by
  constructor
  · intro hcnt
    rw [predict_risk_fallback df hne hcols hcnt]
    simp only [pointsOf]
    refine ⟨by rw [List.length_map, List.length_range], ?_⟩
    intro pt hpt
    simp only [List.mem_map, List.mem_range] at hpt
    obtain ⟨i, _, rfl⟩ := hpt
    exact getLastD_map_score Backend.pollution_index (sortByTs df) (sortByTs_ne_nil df hne) 0 default
  · intro hcnt
    rw [frontend_forecast_fallback horizon df hne hcnt]
    refine ⟨rfl, ?_, ?_⟩
    · simp only [fPointsOf]
      rw [List.length_map, List.length_range]
    · intro pt hpt
      simp only [fPointsOf, List.mem_map, List.mem_range] at hpt
      obtain ⟨i, _, rfl⟩ := hpt
      exact getLastD_map_score Frontend.pollution_index (sortByTs df) (sortByTs_ne_nil df hne) 0 default

/-- Concrete one-reading window (one hourly point) instantiating C6. -/
def flatWitnessDf : List Row :=
  [⟨0, [("ph", 6), ("do2", 4), ("bod", 5), ("cod", 50), ("turbidity", 20),
        ("ammonia", 1), ("temperature", 25), ("conductivity", 300)]⟩]

/-- Witness for C6's amended theorem on a one-reading window. -/
theorem forecast_flat_repeat_witness :
    ((pointsOf (Backend.predict_risk flatWitnessDf)).length = 24
      ∧ ∀ pt ∈ pointsOf (Backend.predict_risk flatWitnessDf),
          pt.risk = Backend.pollution_index ((sortByTs flatWitnessDf).getLastD default))
    ∧ (fFlatOf (Frontend.forecast 72 flatWitnessDf) = true
      ∧ (fPointsOf (Frontend.forecast 72 flatWitnessDf)).length = 72
      ∧ ∀ pt ∈ fPointsOf (Frontend.forecast 72 flatWitnessDf),
          pt.risk = Frontend.pollution_index ((sortByTs flatWitnessDf).getLastD default)) :=
  ⟨(forecast_flat_repeat flatWitnessDf 72 (by decide) (by decide)).1 (by decide),
   (forecast_flat_repeat flatWitnessDf 72 (by decide) (by decide)).2 (by decide)⟩

/-- Cells of a reading that scores 0 in the backend index. -/
def zeroScoreCells : List (String × ℚ) :=
  [("ph", 7), ("do2", 6), ("bod", 0), ("cod", 0), ("turbidity", 0),
   ("ammonia", 0), ("temperature", 25), ("conductivity", 0)]

/-- One reading at 01:00 — takes the flat-fallback path. -/
def flatIndisA : List Row := [⟨3600, zeroScoreCells⟩]

/-- Two readings at 00:00 and 01:00 — takes the regression path. -/
def flatIndisB : List Row := [⟨0, zeroScoreCells⟩, ⟨3600, zeroScoreCells⟩]

/-- The single output record both windows below produce. -/
def flatIndisResult : MLResult :=
  ⟨"next_24h", (List.range 24).map (fun (i : ℕ) => ⟨3600 + 3600 * ((i : Int) + 1), 0⟩),
   "baseline", 0⟩

theorem pollution_index_zeroScoreCells (t : Int) :
    Backend.pollution_index ⟨t, zeroScoreCells⟩ = 0 := by
  simp +decide [Backend.pollution_index, Row.get, lookupCell, zeroScoreCells]

/-- C6 counterexample: the backend fallback is not flagged to the caller —
`predict_risk` returns byte-identical output for a window on the
flat-fallback path and a different window on the regression path, so no
field of the result can signal the flat/low-confidence projection. -/
theorem fallback_not_flagged :
    hourCount (sortByTs flatIndisA) < 2
    ∧ ¬ hourCount (sortByTs flatIndisB) < 2
    ∧ Backend.predict_risk flatIndisA = .ok flatIndisResult
    ∧ Backend.predict_risk flatIndisB = .ok flatIndisResult := by
  have hf1 : hourFloor 3600 = 1 := by decide
  have hf0 : hourFloor 0 = 0 := by decide
  have hsortA : sortByTs flatIndisA = flatIndisA := by decide
  have hsortB : sortByTs flatIndisB = flatIndisB := by decide
  refine ⟨by decide, by decide, ?_, ?_⟩
  · rw [predict_risk_fallback flatIndisA (by decide) (by decide) (by decide), hsortA]
    have hlast : flatIndisA.getLastD default = ⟨3600, zeroScoreCells⟩ := by decide
    rw [hlast]
    simp only [flatIndisA, List.map_cons, List.map_nil,
      pollution_index_zeroScoreCells, flatIndisResult]
    rfl
  · rw [predict_risk_regression flatIndisB (by decide) (by decide) (by decide), hsortB]
    have hlast : flatIndisB.getLastD default = ⟨3600, zeroScoreCells⟩ := by decide
    have hhead : flatIndisB.headD default = ⟨0, zeroScoreCells⟩ := by decide
    have hcnt : hourCount flatIndisB = 2 := by decide
    rw [hlast, hhead, hcnt]
    have hbm0 : bucketMean Backend.pollution_index flatIndisB (((0 : ℕ) : ℤ)) = some 0 := by
      simp +decide [bucketMean, flatIndisB, hf0, hf1, pollution_index_zeroScoreCells]
    have hbm1 : bucketMean Backend.pollution_index flatIndisB (((1 : ℕ) : ℤ)) = some 0 := by
      simp +decide [bucketMean, flatIndisB, hf0, hf1, pollution_index_zeroScoreCells]
    have hbuckets : (List.range 2).map
        (fun (i : ℕ) => bucketMean Backend.pollution_index flatIndisB (hourFloor (0 : ℤ) + (i : ℤ)))
          = [some 0, some 0] := by
      rw [show List.range 2 = [0, 1] from rfl, List.map_cons, List.map_cons, List.map_nil]
      simp only [hf0, zero_add]
      rw [hbm0, hbm1]
    simp only [Row.ts] at hbuckets ⊢
    rw [hbuckets]
    have hinterp : interpolate [some (0 : ℚ), some 0] = [0, 0] := rfl
    rw [hinterp]
    have hols : olsFit [(0 : ℚ), 0] = (0, 0) := by
      norm_num [olsFit, List.enum, List.enumFrom]
    rw [hols]
    simp only [flatIndisB, List.map_cons, List.map_nil, pollution_index_zeroScoreCells,
      flatIndisResult, hf1, one_mul]
    norm_num

theorem lookupCell_scale (f : ℚ) (k : String) (cs : List (String × ℚ)) :
    lookupCell k (cs.map (scaleCell f))
      = (lookupCell k cs).map (fun v => if k ∈ pollutantCols then v * f else v) := by
  induction cs with
  | nil => rfl
  | cons c cs ih =>
    obtain ⟨a, b⟩ := c
    by_cases hmem : a ∈ pollutantCols <;> by_cases hk : a = k
    · subst hk
      simp [scaleCell, lookupCell, hmem]
    · simp [scaleCell, lookupCell, hmem, hk, ih]
    · subst hk
      simp [scaleCell, lookupCell, hmem]
    · simp [scaleCell, lookupCell, hmem, hk, ih]

theorem get_scaleRow_pollutant (f : ℚ) (r : Row) (c : String) (hc : c ∈ pollutantCols) :
    Row.get (scaleRow f r) c 0 = Row.get r c 0 * f := by
  simp only [Row.get, scaleRow, lookupCell_scale, hc, if_true]
  cases lookupCell c r.cells <;> simp [hc]

theorem get_scaleRow_other (f : ℚ) (r : Row) (c : String) (d : ℚ) (hc : c ∉ pollutantCols) :
    Row.get (scaleRow f r) c d = Row.get r c d := by
  simp only [Row.get, scaleRow, lookupCell_scale]
  cases lookupCell c r.cells <;> simp [hc]

/-- The factor-scaled part of the backend score: the weighted sum of the
five pollutant channels. -/
def pollutantLoad (r : Row) : ℚ :=
  Row.get r "bod" 0 * 0.2 + Row.get r "cod" 0 * 0.1 + Row.get r "turbidity" 0 * 0.05
    + Row.get r "ammonia" 0 * 0.2 + Row.get r "conductivity" 0 * 0.01

theorem pollution_index_scaleRow (f : ℚ) (r : Row) :
    Backend.pollution_index (scaleRow f r)
      = max 0 |Row.get r "ph" 7 - 7| * 1 + max 0 (8 - Row.get r "DO2" 8) * 1.5
        + f * pollutantLoad r := by
  unfold Backend.pollution_index pollutantLoad
  rw [get_scaleRow_other f r "ph" 7 (by decide), get_scaleRow_other f r "DO2" 8 (by decide),
      get_scaleRow_pollutant f r "bod" (by decide), get_scaleRow_pollutant f r "cod" (by decide),
      get_scaleRow_pollutant f r "turbidity" (by decide),
      get_scaleRow_pollutant f r "ammonia" (by decide),
      get_scaleRow_pollutant f r "conductivity" (by decide)]
  ring

theorem pollutantLoad_nonneg (r : Row) (hpos : ∀ c ∈ pollutantCols, 0 ≤ Row.get r c 0) :
    0 ≤ pollutantLoad r := by
  unfold pollutantLoad
  have h1 := hpos "bod" (by decide)
  have h2 := hpos "cod" (by decide)
  have h3 := hpos "turbidity" (by decide)
  have h4 := hpos "ammonia" (by decide)
  have h5 := hpos "conductivity" (by decide)
  have w1 : (0 : ℚ) ≤ Row.get r "bod" 0 * 0.2 := mul_nonneg h1 (by norm_num)
  have w2 : (0 : ℚ) ≤ Row.get r "cod" 0 * 0.1 := mul_nonneg h2 (by norm_num)
  have w3 : (0 : ℚ) ≤ Row.get r "turbidity" 0 * 0.05 := mul_nonneg h3 (by norm_num)
  have w4 : (0 : ℚ) ≤ Row.get r "ammonia" 0 * 0.2 := mul_nonneg h4 (by norm_num)
  have w5 : (0 : ℚ) ≤ Row.get r "conductivity" 0 * 0.01 := mul_nonneg h5 (by norm_num)
  linarith

theorem pollution_index_scale_mono (r : Row) (hpos : ∀ c ∈ pollutantCols, 0 ≤ Row.get r c 0)
    (f1 f2 : ℚ) (h : f1 ≤ f2) :
    Backend.pollution_index (scaleRow f1 r) ≤ Backend.pollution_index (scaleRow f2 r) := by
  rw [pollution_index_scaleRow, pollution_index_scaleRow]
  have := mul_le_mul_of_nonneg_right h (pollutantLoad_nonneg r hpos)
  linarith

theorem insertByTs_map_scale (f : ℚ) (r : Row) (l : List Row) :
    insertByTs (scaleRow f r) (l.map (scaleRow f)) = (insertByTs r l).map (scaleRow f) := by
  induction l with
  | nil => rfl
  | cons x xs ih =>
    show insertByTs (scaleRow f r) (scaleRow f x :: xs.map (scaleRow f)) = _
    simp only [insertByTs]
    have hts1 : (scaleRow f r).ts = r.ts := rfl
    have hts2 : (scaleRow f x).ts = x.ts := rfl
    rw [hts1, hts2]
    split
    · rfl
    · rw [List.map_cons, ih]

theorem sortByTs_map_scale (f : ℚ) (l : List Row) :
    sortByTs (l.map (scaleRow f)) = (sortByTs l).map (scaleRow f) := by
  induction l with
  | nil => rfl
  | cons x xs ih =>
    show sortByTs (scaleRow f x :: xs.map (scaleRow f)) = _
    simp only [sortByTs]
    rw [ih, insertByTs_map_scale]

theorem has_scaleRow (f : ℚ) (r : Row) (c : String) : (scaleRow f r).has c = r.has c := by
  simp only [Row.has, scaleRow, lookupCell_scale]
  cases lookupCell c r.cells <;> simp

theorem hasCol_scale (f : ℚ) (df : List Row) (c : String) :
    hasCol (df.map (scaleRow f)) c = hasCol df c := by
  simp only [hasCol, List.any_map]
  congr 1
  funext r
  exact has_scaleRow f r c

theorem cols_scale (f : ℚ) (df : List Row)
    (hcols : NUMERIC_COLS.all (hasCol df) = true) :
    NUMERIC_COLS.all (hasCol (df.map (scaleRow f))) = true := by
  rw [List.all_eq_true] at hcols ⊢
  intro c hc
  rw [hasCol_scale]
  exact hcols c hc

theorem getLastD_map_rows (g : Row → Row) (l : List Row) (hne : l ≠ []) (d1 d2 : Row) :
    (l.map g).getLastD d1 = g (l.getLastD d2) := by
  rw [List.getLastD_eq_getLast?, List.getLastD_eq_getLast?, List.getLast?_map]
  obtain ⟨x, hx⟩ := Option.isSome_iff_exists.mp (List.getLast?_isSome.mpr hne)
  rw [hx]
  rfl

theorem getLastD_mem (l : List Row) (hne : l ≠ []) (d : Row) : l.getLastD d ∈ l := by
  rw [List.getLastD_eq_getLast?, List.getLast?_eq_getLast_of_ne_nil hne, Option.getD_some]
  exact List.getLast_mem hne

theorem hourCount_map_scale (f : ℚ) (l : List Row) :
    hourCount (l.map (scaleRow f)) = hourCount l := by
  cases l with
  | nil => rfl
  | cons x xs =>
    simp only [List.map_cons, hourCount, List.getLastD_cons]
    cases xs with
    | nil => rfl
    | cons y ys =>
      rw [show (List.map (scaleRow f) (y :: ys)).getLastD (scaleRow f x)
            = scaleRow f ((y :: ys).getLastD x) from
          getLastD_map_rows (scaleRow f) (y :: ys) (by simp) _ _]
      rfl

theorem simBaseline_scaled_eq (df : List Row) (hne : df ≠ [])
    (hcols : NUMERIC_COLS.all (hasCol df) = true) (f : ℚ) :
    baselineOf (Backend.predict_risk (df.map (scaleRow f)))
      = if hourCount (sortByTs df) < 2
        then Backend.pollution_index (scaleRow f ((sortByTs df).getLastD default))
        else ((sortByTs df).map (fun r => Backend.pollution_index (scaleRow f r))).sum
               / ((df.length : ℚ)) := by
  have hne2 : df.map (scaleRow f) ≠ [] := by
    intro h
    exact hne (List.map_eq_nil.mp h)
  have hcols2 := cols_scale f df hcols
  have hsort : sortByTs (df.map (scaleRow f)) = (sortByTs df).map (scaleRow f) :=
    sortByTs_map_scale f df
  have hsne : sortByTs df ≠ [] := sortByTs_ne_nil df hne
  by_cases hcnt : hourCount (sortByTs df) < 2
  · have hcnt2 : hourCount (sortByTs (df.map (scaleRow f))) < 2 := by
      rw [hsort, hourCount_map_scale]
      exact hcnt
    rw [predict_risk_fallback _ hne2 hcols2 hcnt2]
    simp only [baselineOf, if_pos hcnt]
    rw [hsort,
        getLastD_map_score Backend.pollution_index ((sortByTs df).map (scaleRow f))
          (by intro h; exact hsne (List.map_eq_nil.mp h)) 0 default,
        getLastD_map_rows (scaleRow f) (sortByTs df) hsne default default]
  · have hcnt2 : ¬ hourCount (sortByTs (df.map (scaleRow f))) < 2 := by
      rw [hsort, hourCount_map_scale]
      exact hcnt
    rw [predict_risk_regression _ hne2 hcols2 hcnt2]
    simp only [baselineOf, if_neg hcnt]
    rw [hsort, List.map_map, List.length_map, (sortByTs_perm df).length_eq]
    rfl

theorem simBaseline_scale_mono (df : List Row) (hne : df ≠ [])
    (hcols : NUMERIC_COLS.all (hasCol df) = true)
    (hpos : ∀ r ∈ df, ∀ c ∈ pollutantCols, 0 ≤ Row.get r c 0)
    (f1 f2 : ℚ) (h : f1 ≤ f2) :
    baselineOf (Backend.predict_risk (df.map (scaleRow f1)))
      ≤ baselineOf (Backend.predict_risk (df.map (scaleRow f2))) := by
  rw [simBaseline_scaled_eq df hne hcols f1, simBaseline_scaled_eq df hne hcols f2]
  have hsne : sortByTs df ≠ [] := sortByTs_ne_nil df hne
  split_ifs with hcnt
  · refine pollution_index_scale_mono _ ?_ f1 f2 h
    intro c hc
    exact hpos _ ((sortByTs_perm df).mem_iff.mp (getLastD_mem _ hsne default)) c hc
  · have hlen : (0 : ℚ) < (df.length : ℚ) := by
      have hz : df.length ≠ 0 := by simpa [List.length_eq_zero] using hne
      exact_mod_cast Nat.pos_of_ne_zero hz
    rw [div_le_div_iff_of_pos_right hlen]
    apply List.sum_le_sum
    intro r hr
    exact pollution_index_scale_mono r
      (fun c hc => hpos r ((sortByTs_perm df).mem_iff.mp hr) c hc) f1 f2 h

theorem factor_antitone (p1 p2 : ℚ) (h : p1 ≤ p2) :
    max 0 (min 1 (1 - p2 / 100)) ≤ max 0 (min 1 (1 - p1 / 100)) := by
  have h1 : (1 : ℚ) - p2 / 100 ≤ 1 - p1 / 100 := by linarith
  exact max_le_max le_rfl (min_le_min le_rfl h1)

/-- C8 (amended): on a fixed non-empty window whose pollutant-channel
values are all non-negative, the simulated baseline risk is monotonically
non-increasing in `reduction_pct` over [0, 100]; a window with a negative
pollutant value violates this (see the counterexample). -/
theorem simulate_baseline_antitone (df : List Row) (hne : df ≠ [])
    (hcols : NUMERIC_COLS.all (hasCol df) = true)
    (hpos : ∀ r ∈ df, ∀ c ∈ pollutantCols, 0 ≤ Row.get r c 0)
    (p1 p2 : ℚ) (h0 : 0 ≤ p1) (h12 : p1 ≤ p2) (h100 : p2 ≤ 100) :
    simBaseline df p2 ≤ simBaseline df p1 := by
  unfold simBaseline
  rw [simulate_policy_nonempty df p1 hne, simulate_policy_nonempty df p2 hne]
  exact simBaseline_scale_mono df hne hcols hpos _ _ (factor_antitone p1 p2 h12)

/-- Concrete window with non-negative pollutant channels instantiating
C8. -/
def antitoneDf : List Row :=
  [⟨0, [("ph", 6), ("do2", 6), ("bod", 5), ("cod", 50), ("turbidity", 20),
        ("ammonia", 1), ("temperature", 25), ("conductivity", 300)]⟩]

/-- Witness for C8's amended theorem at reductions 0 and 50. -/
theorem simulate_baseline_antitone_witness :
    simBaseline antitoneDf 50 ≤ simBaseline antitoneDf 0 :=
  simulate_baseline_antitone antitoneDf (by decide) (by decide) (by decide)
    0 50 (by norm_num) (by norm_num) (by norm_num)

/-- Cells of a reading with a negative BOD (out-of-range values are valid
inputs per the data model). -/
def negBodCells : List (String × ℚ) :=
  [("ph", 7), ("do2", 8), ("bod", -1), ("cod", 0), ("turbidity", 0),
   ("ammonia", 0), ("temperature", 25), ("conductivity", 0)]

/-- One-reading window with a negative BOD value. -/
def negBodDf : List Row := [⟨0, negBodCells⟩]

/-- C8 counterexample: on a window with a negative pollutant value,
raising `reduction_pct` from 0 to 100 strictly increases the simulated
baseline risk (scaling `bod = -1` toward zero raises the score). -/
theorem reduction_can_increase_baseline :
    simBaseline negBodDf 0 < simBaseline negBodDf 100 := by
  have hne : negBodDf ≠ [] := by decide
  have hcols : NUMERIC_COLS.all (hasCol negBodDf) = true := by decide
  have hrow : (sortByTs negBodDf).getLastD default = ⟨0, negBodCells⟩ := by decide
  have hcnt : hourCount (sortByTs negBodDf) < 2 := by decide
  have e0 : simBaseline negBodDf 0 = -(1 / 5) := by
    unfold simBaseline
    rw [simulate_policy_nonempty negBodDf 0 hne,
        simBaseline_scaled_eq negBodDf hne hcols _, if_pos hcnt, hrow]
    have hfac : max (0 : ℚ) (min 1 (1 - 0 / 100)) = 1 := by norm_num
    rw [hfac, scaleRow_one]
    simp +decide [Backend.pollution_index, Row.get, lookupCell, negBodCells]
    norm_num
  have e100 : simBaseline negBodDf 100 = 0 := by
    unfold simBaseline
    rw [simulate_policy_nonempty negBodDf 100 hne,
        simBaseline_scaled_eq negBodDf hne hcols _, if_pos hcnt, hrow]
    have hfac : max (0 : ℚ) (min 1 (1 - 100 / 100)) = 0 := by norm_num
    rw [hfac]
    simp +decide [Backend.pollution_index, scaleRow, scaleCell, Row.get, lookupCell, negBodCells]
  rw [e0, e100]
  norm_num

end Drishti
